import Mathlib

set_option maxHeartbeats 1000000
set_option maxRecDepth 4000

/-
Shallow embedding of `src/napari_features/generator.py` (the lazy, cached,
per-object feature-evaluation engine), instantiated at the 2-D,
single-channel case that the spec's testable properties address.  Machine
arrays become lists of lists; the intensity image holds rationals (the
source normalizes to float32 in [0,1]); the label image holds naturals.
Exceptions (`IndexError` at construction, `StopIteration` on advance)
become `Except`/`Option`.
-/

namespace NapariFeatures

/-- ObjectSlice: a per-axis half-open index range `(start, stop)` for the
2-D case, mirroring the slice tuples produced by `scipy.ndimage.find_objects`. -/
structure Slice2 where
  r0 : Nat
  r1 : Nat
  c0 : Nat
  c1 : Nat
deriving Repr, DecidableEq

/-- LabelImage: 2-D array of non-negative integers, 0 = background. -/
abbrev LabelImage := List (List Nat)

/-- Exact fraction `num / den`, the number representation of the
embedding: the source's normalized float32 intensities and the derived
per-object means are modeled as exact fractions so that every theorem
below is checkable by evaluation.  The representation is not reduced;
`Q.equiv` is equality of the denoted rationals. -/
structure Q where
  num : Int
  den : Nat
deriving Repr, DecidableEq

/-- The fraction `n / 1`. -/
def Q.ofNat (n : Nat) : Q :=
  ⟨n, 1⟩

/-- Fraction addition on the exact representation. -/
def Q.add (a b : Q) : Q :=
  ⟨a.num * b.den + b.num * a.den, a.den * b.den⟩

/-- Scale a fraction by a natural number. -/
def Q.mulNat (a : Q) (n : Nat) : Q :=
  ⟨a.num * n, a.den⟩

/-- Divide a fraction by a natural number. -/
def Q.divNat (a : Q) (n : Nat) : Q :=
  ⟨a.num, a.den * n⟩

/-- Equality of the denoted rational numbers (cross multiplication). -/
def Q.equiv (a b : Q) : Prop :=
  a.num * (b.den : Int) = b.num * (a.den : Int)

instance Q.decEquiv (a b : Q) : Decidable (a.equiv b) :=
  inferInstanceAs (Decidable (a.num * (b.den : Int) = b.num * (a.den : Int)))

/-- IntensityImage: 2-D array of normalized intensities. -/
abbrev IntensityImage := List (List Q)

/-- Flattened list of all entries of a 2-D grid (row-major). -/
def gridEntries (label : LabelImage) : List Nat :=
  label.flatten

/-- Largest label value occurring in the label image (0 when empty).
Used to model the length contract of `scipy.ndimage.find_objects`:
its result has one entry per label value `1 .. max(label)`. -/
def gridMax (label : LabelImage) : Nat :=
  (gridEntries label).foldr max 0

/-- Row-major list of the pixel positions carrying label value `l`. -/
def pixelsWith (label : LabelImage) (l : Nat) : List (Nat × Nat) :=
  (label.enum.map (fun ir =>
    ((ir.2.enum.filter (fun jv => decide (jv.2 = l))).map (fun jv => (ir.1, jv.1))))).flatten

/-- Minimal bounding box of the pixels with label `l`; `none` when the
label value does not occur (as `find_objects` returns `None` there). -/
def bboxOf (label : LabelImage) (l : Nat) : Option Slice2 :=
  match pixelsWith label l with
  | [] => none
  | p :: ps =>
      some { r0 := ((p :: ps).map Prod.fst).foldr min p.1
           , r1 := ((p :: ps).map Prod.fst).foldr max p.1 + 1
           , c0 := ((p :: ps).map Prod.snd).foldr min p.2
           , c1 := ((p :: ps).map Prod.snd).foldr max p.2 + 1 }

/-- Model of the external collaborator `scipy.ndimage.find_objects`
(spec section 6: `find_object_bounding_boxes`): entry `i` is the bounding
box of label `i + 1`; one entry per label value `1 .. max(label)`. -/
def findObjects (label : LabelImage) : List (Option Slice2) :=
  (List.range (gridMax label)).map (fun i => bboxOf label (i + 1))

/-- Cached values stored in `Generator.cache`.  `vec none` models the NaN
row that `numpy.ndarray.mean(axis=0)` produces on an empty coordinate
array (division by a zero pixel count). -/
inductive Val where
  | num (q : Q)
  | nat (n : Nat)
  | vec (v : Option (List Q))
  | coords (cs : List (List Nat))
  | grid (m : List (List Nat))
  | tensor (t : List (List (List Nat)))
deriving Repr, DecidableEq

/-- Lookup in an association-list cache, mirroring `name in generator.cache`
followed by `generator.cache[name]` in the `cache` decorator
(generator.py lines 15-25). -/
def lookupKey {α : Type} : List (String × α) → String → Option α
  | [], _ => none
  | (k, v) :: rest, name => if k = name then some v else lookupKey rest name

/-- Engine state: the fields assigned in `Generator.__init__`
(generator.py lines 29-48).  `object` is `Option` because
`find_objects` yields `None` entries for missing label values. -/
structure Gen where
  label : LabelImage
  image : IntensityImage
  multichannel : Bool
  objects : List (Option Slice2)
  object_index : Nat
  object : Option Slice2
  volumetric : Bool
  cache : List (String × Val)
deriving Repr, DecidableEq

/-- Shape of a 2-D grid, as the Python tuple `array.shape`. -/
def shapeOf {α : Type} (g : List (List α)) : List Nat :=
  [g.length, (g.headD []).length]

/-- Python tuple comparison `label.shape < image.shape`
(lexicographic, a strict prefix being smaller), used verbatim by
`__init__` to set `self.multichannel` (generator.py line 36). -/
def tupleLt : List Nat → List Nat → Bool
  | [], [] => false
  | [], _ :: _ => true
  | _ :: _, [] => false
  | a :: as, b :: bs => if a < b then true else if b < a then false else tupleLt as bs

/-- Model of `skimage.img_as_float32`: the intensity image is already
held as normalized rationals, so the conversion is the identity here
(the conversion itself is an external collaborator, spec section 6). -/
def imgAsFloat (image : IntensityImage) : IntensityImage :=
  image

/-- Embeds `Generator.__init__` (generator.py lines 29-48).  The only
failure is the `IndexError` from `self.objects[self.object_index - 1]`
(line 42) when `find_objects` returned an empty list, i.e. when the
label image has no positive labels.  No other validation occurs. -/
def init (label : LabelImage) (image : IntensityImage) : Except String Gen :=
  match (findObjects label).get? 0 with
  | none => .error "IndexError"
  | some s =>
      .ok { label := label
          , image := imgAsFloat image
          , multichannel := tupleLt (shapeOf label) (shapeOf image)
          , objects := findObjects label
          , object_index := 1
          , object := s
          , volumetric := false
          , cache := [] }

/-- Embeds `Generator.__next__` (generator.py lines 53-61): try to read
`objects[object_index - 1]` (IndexError becomes `none`, i.e.
StopIteration), then increment `object_index`, then the feature row is
evaluated against the returned post-advance state.  Note: `self.cache`
is not touched. -/
def next (g : Gen) : Option Gen :=
  match g.objects.get? (g.object_index - 1) with
  | none => none
  | some s => some { g with object := s, object_index := g.object_index + 1 }

/-- State after `k` successful advances (`none` once exhausted). -/
def runNext (g : Gen) : Nat → Option Gen
  | 0 => some g
  | k + 1 => (runNext g k).bind next

/-- Embeds the `cache` decorator (generator.py lines 15-25): look the
name up in `generator.cache`; on a miss run the wrapped computation
(which may itself fill the cache through nested property accesses),
store its value under the name, and return it. -/
def cachedProp (g : Gen) (name : String) (compute : Gen → Val × Gen) : Val × Gen :=
  match lookupKey g.cache name with
  | some v => (v, g)
  | none =>
      let r := compute g
      (r.1, { r.2 with cache := (name, r.1) :: r.2.cache })

/-- Instrumented variant of the `cache` decorator threading an
invocation counter for the wrapped computation, as in the spec's
memoization test (spec section 8): identical control flow, but the
counter increases exactly when the underlying computation runs. -/
def cachedCallCount {α : Type} (c : List (String × α)) (name : String)
    (f : Unit → α) (count : Nat) : α × List (String × α) × Nat :=
  match lookupKey c name with
  | some v => (v, c, count)
  | none =>
      let v := f ()
      (v, (name, v) :: c, count + 1)

/-- Row-major positions of the nonzero pixels of the full intensity
image, as `numpy.nonzero(self.image)` (generator.py line 90): note the
source passes the entire image, not the crop.  A fraction denotes zero
exactly when its numerator is zero. -/
def nonzeroIndices (image : IntensityImage) : List (Nat × Nat) :=
  (image.enum.map (fun ir =>
    ((ir.2.enum.filter (fun jv => decide (jv.2.num ≠ 0))).map (fun jv => (ir.1, jv.1))))).flatten

/-- Embeds the body of `Generator.coordinates` (generator.py lines
87-97): indices of the nonzero pixels of the whole intensity image, each
shifted by the current slice's start along every axis, stacked as rows.
The `none` branch models the unreachable missing-label case (the source
would raise there; no claim exercises it). -/
def coordsOfG (g : Gen) : List (List Nat) :=
  match g.object with
  | none => []
  | some s => (nonzeroIndices g.image).map (fun p => [p.1 + s.r0, p.2 + s.c0])

/-- Follows the SPEC's words (section 4.2, `coordinates`), for comparison
with `coordsOfG`: for every nonzero intensity pixel lying inside the
current slice, its absolute (global) multi-index, one row per such pixel. -/
def specCoordinates (g : Gen) : List (List Nat) :=
  match g.object with
  | none => []
  | some s =>
      ((nonzeroIndices g.image).filter (fun p =>
        decide (s.r0 ≤ p.1) && decide (p.1 < s.r1) &&
        decide (s.c0 ≤ p.2) && decide (p.2 < s.c1))).map (fun p => [p.1, p.2])

/-- Coordinate rows as fractions, for averaging. -/
def ratRows (cs : List (List Nat)) : List (List Q) :=
  cs.map (fun row => row.map Q.ofNat)

/-- Model of `ndarray.mean(axis=0)` on an (N × d) array: the per-column
mean (column sums divided by the row count); `none` models the NaN row
numpy produces when N = 0 (mean of an empty slice), which numpy returns
silently rather than raising. -/
def meanAxis0 (rows : List (List Q)) : Option (List Q) :=
  match rows with
  | [] => none
  | r :: rs =>
      some (((rs.foldr (fun a b => List.zipWith Q.add a b) r)).map
        (fun x => x.divNat (r :: rs).length))

/-- The cached `coordinates` property (generator.py lines 87-97). -/
def coordinatesP (g : Gen) : Val × Gen :=
  cachedProp g "coordinates" (fun g => (Val.coords (coordsOfG g), g))

/-- Computes `self.coordinates.mean(axis=0)` from the coordinates value. -/
def centroidFrom (v : Val) : Val :=
  match v with
  | Val.coords cs => Val.vec (meanAxis0 (ratRows cs))
  | _ => Val.vec none

/-- The cached `centroid` property (generator.py lines 73-76):
`self.coordinates.mean(axis=0)`, with the nested cached access to
`coordinates` threaded through the cache. -/
def centroidP (g : Gen) : Val × Gen :=
  cachedProp g "centroid" (fun g =>
    let r := coordinatesP g
    (centroidFrom r.1, r.2))

/-- Sum of every entry of the label image, as `numpy.sum(self.label)`. -/
def sumGrid (label : LabelImage) : Nat :=
  (label.map (fun row => row.foldr (· + ·) 0)).foldr (· + ·) 0

/-- Embeds the body of `Generator.area` (generator.py lines 63-66):
the sum over the ENTIRE label image, not over the current object. -/
def computeArea (g : Gen) : Val :=
  Val.nat (sumGrid g.label)

/-- The cached `area` property. -/
def areaP (g : Gen) : Val × Gen :=
  cachedProp g "area" (fun g => (computeArea g, g))

/-- Crop of a 2-D grid to a slice, as `array[self.object]`. -/
def cropGrid {α : Type} (img : List (List α)) (s : Slice2) : List (List α) :=
  ((img.drop s.r0).take (s.r1 - s.r0)).map (fun row => (row.drop s.c0).take (s.c1 - s.c0))

/-- Embeds `Generator.mask` (generator.py lines 128-131):
`label[self.object] > 0`.  The source's `numpy.squeeze` is the identity
whenever no bounding-box axis is singleton; the embedding covers that
generic case. -/
def maskOf (g : Gen) : List (List Bool) :=
  match g.object with
  | none => []
  | some s => (cropGrid g.label s).map (fun row => row.map (fun v => decide (0 < v)))

/-- Embeds `Generator.masked` (generator.py lines 133-136):
`image[self.object] * mask` elementwise (False zeroing the entry). -/
def maskedOf (g : Gen) : List (List Q) :=
  match g.object with
  | none => []
  | some s =>
      List.zipWith (fun crow mrow => List.zipWith (fun x b => if b then x else Q.ofNat 0) crow mrow)
        (cropGrid g.image s) (maskOf g)

/-- Model of `skimage.img_as_ubyte` on a normalized value in [0,1]:
scale by 255 and round to the nearest integer, i.e. the floor of
`x * 255 + 1/2` computed on the exact fraction.  (The library's exact
tie-breaking mode is immaterial to every property stated below.) -/
def toUbyte (x : Q) : Nat :=
  (Int.fdiv (x.num * 255 * 2 + x.den) (2 * x.den)).toNat

/-- Model of the external collaborator `skimage.measure.moments(img, 3)`
on a 2-D image (spec section 6, `raw_moments`): the 4 × 4 matrix of raw
moments, entry (p, q) being the sum over pixels of `r ^ p * c ^ q * I[r, c]`
(integer-valued on an 8-bit image). -/
def moments2 (img : List (List Nat)) : List (List Nat) :=
  (List.range 4).map (fun p =>
    (List.range 4).map (fun q =>
      ((img.enum.map (fun rrow =>
        ((rrow.2.enum.map (fun cv =>
          rrow.1 ^ p * cv.1 ^ q * cv.2)).foldr (· + ·) 0))).foldr
        (· + ·) 0)))

/-- The all-zero 4 × 4 matrix, one depth slice of `numpy.zeros((4, 4, 4))`. -/
def zeros44 : List (List Nat) :=
  (List.range 4).map (fun _ => (List.range 4).map (fun _ => 0))

/-- Embeds the body of `Generator.spatial_moments` (generator.py lines
138-150): raw moments of the 8-bit-converted masked crop; when not
volumetric, embedded as slice 0 of a zero-initialized 4 × 4 × 4 tensor
(`v = numpy.zeros((4, 4, 4)); v[0] = m`); otherwise the raw tensor. -/
def computeSpatialMoments (g : Gen) : Val :=
  let m := moments2 ((maskedOf g).map (fun row => row.map toUbyte))
  if g.volumetric = false then Val.tensor [m, zeros44, zeros44, zeros44]
  else Val.grid m

/-- The cached `spatial_moments` property. -/
def spatialMomentsP (g : Gen) : Val × Gen :=
  cachedProp g "spatial_moments" (fun g => (computeSpatialMoments g, g))

/-- Embeds the feature `_feature_metadata_object_index` (generator.py
lines 355-357): it returns `self.object_index` as it stands when the
row is evaluated, i.e. after `__next__` has already incremented it. -/
def featureMetadataObjectIndex (g : Gen) : Nat :=
  g.object_index

/-- Follows the SPEC's words (sections 3 and 7), for comparison with
`init`: the label and intensity shapes are called compatible when they
are equal or when the intensity shape is a valid multichannel extension
(the label shape plus one trailing channel axis). -/
def specShapesCompatible (lshape ishape : List Nat) : Bool :=
  decide (lshape = ishape) ||
    (decide (ishape.length = lshape.length + 1) && decide (ishape.take lshape.length = lshape))

/-- The engine state `init [[1]] [[1]]` constructs: a single one-pixel
object with label 1 and intensity 1. -/
def gEx : Gen :=
  ⟨[[1]], [[Q.ofNat 1]], false, [some ⟨0, 1, 0, 1⟩], 1, some ⟨0, 1, 0, 1⟩, false, []⟩

/-- The state `gEx` reaches after its one successful advance (the state
the first feature row is evaluated against). -/
def gEx1 : Gen :=
  ⟨[[1]], [[Q.ofNat 1]], false, [some ⟨0, 1, 0, 1⟩], 2, some ⟨0, 1, 0, 1⟩, false, []⟩

/-- Two one-pixel objects: label 1 at (0,0), label 2 at (1,1). -/
def labelC1 : LabelImage :=
  [[1, 0], [0, 2]]

/-- Intensity image for `labelC1`: nonzero exactly at (0,0) and (1,1). -/
def imageC1 : IntensityImage :=
  [[Q.ofNat 1, Q.ofNat 0], [Q.ofNat 0, Q.ofNat 1]]

/-- The state `init labelC1 imageC1` constructs. -/
def genC1a : Gen :=
  ⟨labelC1, imageC1, false, [some ⟨0, 1, 0, 1⟩, some ⟨1, 2, 1, 2⟩], 1,
    some ⟨0, 1, 0, 1⟩, false, []⟩

/-- The state after the first advance of `genC1a` (object 1's row). -/
def genC1b : Gen :=
  ⟨labelC1, imageC1, false, [some ⟨0, 1, 0, 1⟩, some ⟨1, 2, 1, 2⟩], 2,
    some ⟨0, 1, 0, 1⟩, false, []⟩

/-- The state after computing `centroid` for object 1 and advancing to
object 2: the cache still holds object 1's centroid and coordinates. -/
def genC1c : Gen :=
  ⟨labelC1, imageC1, false, [some ⟨0, 1, 0, 1⟩, some ⟨1, 2, 1, 2⟩], 3,
    some ⟨1, 2, 1, 2⟩, false,
    [("centroid", Val.vec (some [⟨1, 2⟩, ⟨1, 2⟩])),
     ("coordinates", Val.coords [[0, 0], [1, 1]])]⟩

/-- A 3 × 4 label image whose single object (label 1) is the one pixel
at (2,3). -/
def labelC3 : LabelImage :=
  [[0, 0, 0, 0], [0, 0, 0, 0], [0, 0, 0, 1]]

/-- Intensity image for `labelC3`: nonzero at (0,0) (outside the
object's bounding box) and at (2,3) (the object pixel). -/
def imageC3 : IntensityImage :=
  [[Q.ofNat 1, Q.ofNat 0, Q.ofNat 0, Q.ofNat 0],
   [Q.ofNat 0, Q.ofNat 0, Q.ofNat 0, Q.ofNat 0],
   [Q.ofNat 0, Q.ofNat 0, Q.ofNat 0, Q.ofNat 1]]

/-- The state `init labelC3 imageC3` constructs. -/
def genC3a : Gen :=
  ⟨labelC3, imageC3, false, [some ⟨2, 3, 3, 4⟩], 1, some ⟨2, 3, 3, 4⟩, false, []⟩

/-- The state after the first advance of `genC3a` (object 1's row). -/
def genC3b : Gen :=
  ⟨labelC3, imageC3, false, [some ⟨2, 3, 3, 4⟩], 2, some ⟨2, 3, 3, 4⟩, false, []⟩

/-- A degenerate object state: the bounding box crops an all-zero label
patch (empty mask, zero foreground pixels) and an all-zero intensity
patch, so the coordinate set is empty. -/
def genDegenerate : Gen :=
  ⟨[[0]], [[Q.ofNat 0]], false, [], 1, some ⟨0, 1, 0, 1⟩, false, []⟩

/-- A moment tensor as returned by the external moment routine, whose
rank follows the masked array's dimensionality: a 4 × 4 matrix for a
2-D masked crop, a 4 × 4 × 4 tensor for a 3-D one. -/
inductive MomentTensor where
  | two (m : List (List Nat))
  | three (t : List (List (List Nat)))
deriving Repr, DecidableEq

/-- Model of the external collaborator `skimage.measure.moments(img, 3)`
on a 3-D image: the 4 × 4 × 4 tensor of raw moments, entry (p, q, r)
being the sum over voxels of `x ^ p * y ^ q * z ^ r * I[x, y, z]`
(integer-valued on an 8-bit image). -/
def moments3 (img : List (List (List Nat))) : List (List (List Nat)) :=
  (List.range 4).map (fun p =>
    (List.range 4).map (fun q =>
      (List.range 4).map (fun r =>
        ((img.enum.map (fun xpl =>
          ((xpl.2.enum.map (fun yrow =>
            ((yrow.2.enum.map (fun zv =>
              xpl.1 ^ p * yrow.1 ^ q * zv.1 ^ r * zv.2)).foldr (· + ·) 0))).foldr
            (· + ·) 0))).foldr (· + ·) 0))))

/-- Embeds the body of `Generator.spatial_moments` (generator.py lines
138-150) generically in the masked array's dimensionality, i.e. in the
rank of the moment tensor `m` the external routine returns.  In the
non-volumetric branch the numpy slice assignment `v[0] = m` broadcasts
`m` into the 4 × 4 first depth slice of the zero-initialized 4 × 4 × 4
tensor `v`: a 4 × 4 `m` fills the slice, while a 4 × 4 × 4 `m` (from a
3-D masked array) cannot broadcast into shape (4, 4) and numpy raises
ValueError.  In the volumetric branch `m` is returned as is. -/
def spatialMomentsGeneric (m : MomentTensor) (volumetric : Bool) : Except String Val :=
  if volumetric = false then
    match m with
    | .two m2 => .ok (Val.tensor [m2, zeros44, zeros44, zeros44])
    | .three _ => .error "ValueError"
  else
    match m with
    | .two m2 => .ok (Val.grid m2)
    | .three t => .ok (Val.tensor t)

/-- A successful advance reads the slice at `object_index - 1` and only
updates `object` and `object_index`; in particular the cache, the
images and the object list are untouched. -/
theorem next_some_eq (g g' : Gen) (h : next g = some g') :
    ∃ s, g.objects.get? (g.object_index - 1) = some s ∧
      g' = { g with object := s, object_index := g.object_index + 1 } := by
  unfold next at h
  cases hs : g.objects.get? (g.object_index - 1) with
  | none => rw [hs] at h; cases h
  | some s =>
      rw [hs] at h
      exact ⟨s, rfl, (Option.some.inj h).symm⟩

/-- Fields preserved along any run of successful advances; the cursor
moves forward by exactly one object per advance. -/
theorem runNext_fields (g gk : Gen) (k : Nat) (h : runNext g k = some gk) :
    gk.objects = g.objects ∧ gk.object_index = g.object_index + k ∧
    gk.label = g.label ∧ gk.volumetric = g.volumetric := by
  induction k generalizing gk with
  | zero =>
      simp only [runNext] at h
      cases h
      exact ⟨rfl, rfl, rfl, rfl⟩
  | succ k ih =>
      simp only [runNext] at h
      cases hk : runNext g k with
      | none => rw [hk] at h; cases h
      | some gm =>
          rw [hk] at h
          have h2 : next gm = some gk := h
          obtain ⟨s, _, rfl⟩ := next_some_eq gm gk h2
          obtain ⟨h3, h4, h5, h6⟩ := ih gm hk
          refine ⟨h3, ?_, h5, h6⟩
          simp only [h4]
          omega

/-- While the cursor has not passed the end of the object list, every
advance succeeds. -/
theorem runNext_isSome (g : Gen) (h0 : g.object_index = 1) (k : Nat)
    (hk : k ≤ g.objects.length) : (runNext g k).isSome := by
  induction k with
  | zero => simp [runNext]
  | succ k ih =>
      have h1 := ih (Nat.le_of_succ_le hk)
      obtain ⟨gk, hgk⟩ := Option.isSome_iff_exists.mp h1
      obtain ⟨ho, hi, _, _⟩ := runNext_fields g gk k hgk
      have hidx : gk.object_index - 1 < gk.objects.length := by
        rw [ho, hi, h0]; omega
      have hs := List.get?_eq_get hidx
      simp only [runNext]
      rw [hgk]
      show (next gk).isSome
      unfold next
      rw [hs]
      rfl

/-- Once the cursor has passed the end, every further request fails. -/
theorem runNext_none_after (g : Gen) (h0 : g.object_index = 1) (k : Nat)
    (hk : g.objects.length < k) : runNext g k = none := by
  induction k with
  | zero => omega
  | succ k ih =>
      rcases Nat.lt_or_ge g.objects.length k with hcase | hcase
      · simp [runNext, ih hcase]
      · have hkN : k = g.objects.length := by omega
        have hs := runNext_isSome g h0 k (by omega)
        obtain ⟨gk, hgk⟩ := Option.isSome_iff_exists.mp hs
        obtain ⟨ho, hi, _, _⟩ := runNext_fields g gk k hgk
        have hnone : gk.objects.get? (gk.object_index - 1) = none := by
          rw [ho, hi, h0]
          exact List.get?_eq_none.mpr (by omega)
        simp only [runNext]
        rw [hgk]
        show next gk = none
        unfold next
        rw [hnone]

/-- The fold computing the maximal entry is bounded by any bound on the
entries. -/
theorem foldr_max_le (xs : List Nat) (N : Nat) (h : ∀ v ∈ xs, v ≤ N) :
    xs.foldr max 0 ≤ N := by
  induction xs with
  | nil => exact Nat.zero_le N
  | cons a as ih =>
      simp only [List.foldr_cons]
      exact max_le (h a (by simp)) (ih fun v hv => h v (by simp [hv]))

/-- Every entry is bounded by the fold computing the maximal entry. -/
theorem le_foldr_max (xs : List Nat) (v : Nat) (h : v ∈ xs) :
    v ≤ xs.foldr max 0 := by
  induction xs with
  | nil => cases h
  | cons a as ih =>
      simp only [List.foldr_cons]
      rcases List.mem_cons.mp h with h1 | h2
      · rw [h1]; exact le_max_left _ _
      · exact le_trans (ih h2) (le_max_right _ _)

/-- The modeled `find_objects` yields one slot per label value `1 .. max`. -/
theorem findObjects_length (label : LabelImage) :
    (findObjects label).length = gridMax label := by
  simp [findObjects]

/-- A successfully constructed engine starts at cursor 1, not
volumetric, with the located objects and the given label image. -/
theorem init_ok_fields (label : LabelImage) (image : IntensityImage) (g : Gen)
    (h : init label image = .ok g) :
    g.volumetric = false ∧ g.object_index = 1 ∧
    g.objects = findObjects label ∧ g.label = label := by
  unfold init at h
  cases hs : (findObjects label).get? 0 with
  | none => rw [hs] at h; cases h
  | some s =>
      rw [hs] at h
      cases h
      exact ⟨rfl, rfl, rfl, rfl⟩

/-- C1: the claim says the cache is discarded on every advance and no
value cached for object i is ever returned for object i+1.  The code
never clears `self.cache` in `__next__`: here, on the two-object input
`labelC1`/`imageC1`, `centroid` computed during object 1's row is
returned verbatim for object 2 (straight from the cache, state
unchanged), although a fresh computation for object 2 would give
(3/2, 3/2) instead of the stale (1/2, 1/2). -/
theorem c1_stale_cache_returned :
    init labelC1 imageC1 = .ok genC1a ∧
    next genC1a = some genC1b ∧
    (centroidP genC1b).1 = Val.vec (some [⟨1, 2⟩, ⟨1, 2⟩]) ∧
    next (centroidP genC1b).2 = some genC1c ∧
    genC1c.cache = (centroidP genC1b).2.cache ∧
    (centroidP genC1c).1 = Val.vec (some [⟨1, 2⟩, ⟨1, 2⟩]) ∧
    (centroidP genC1c).2 = genC1c ∧
    meanAxis0 (ratRows (coordsOfG genC1c)) = some [⟨3, 2⟩, ⟨3, 2⟩] ∧
    ¬ Q.equiv ⟨1, 2⟩ ⟨3, 2⟩ := by
  refine ⟨rfl, by decide, by decide, by decide, by decide, by decide, by decide, by decide,
    by decide⟩

/-- C2: the claim says the k-th yielded row's
`_feature_metadata_object_index` equals k.  `__next__` increments
`object_index` before the feature row is evaluated, so the first row of
a one-object image reports 2, not 1. -/
theorem c2_object_index_off_by_one :
    init [[1]] [[Q.ofNat 1]] = .ok gEx ∧
    next gEx = some gEx1 ∧
    featureMetadataObjectIndex gEx1 = 2 ∧
    featureMetadataObjectIndex gEx1 ≠ 1 := by
  refine ⟨rfl, by decide, by decide, by decide⟩

/-- C3: the claim says `coordinates` has one row per nonzero intensity
pixel inside the current slice, holding that pixel's absolute
multi-index.  The code takes `numpy.nonzero` of the WHOLE image and adds
the slice start to those already-global indices: on `labelC3`/`imageC3`
(object slice starting at (2,3); nonzero pixels (0,0) and (2,3)) it
yields [[2,3],[4,6]] instead of the claimed [[2,3]]. -/
theorem c3_coordinates_wrong :
    init labelC3 imageC3 = .ok genC3a ∧
    next genC3a = some genC3b ∧
    coordsOfG genC3b = [[2, 3], [4, 6]] ∧
    specCoordinates genC3b = [[2, 3]] ∧
    coordsOfG genC3b ≠ specCoordinates genC3b := by
  refine ⟨rfl, by decide, by decide, by decide, by decide⟩

/-- C4: requesting a derived quantity twice for the same object (no
intervening advance) runs the underlying computation exactly once: the
first request computes the value, whose only effect is the cache write;
the second request returns the identical cached value with the cache
and the invocation count unchanged. -/
theorem c4_memoized_once {α : Type} (c : List (String × α)) (name : String) (f : Unit → α)
    (h : lookupKey c name = none) :
    (cachedCallCount c name f 0).1 = f () ∧
    (cachedCallCount c name f 0).2.1 = (name, f ()) :: c ∧
    (cachedCallCount c name f 0).2.2 = 1 ∧
    (cachedCallCount ((cachedCallCount c name f 0).2.1) name f
        ((cachedCallCount c name f 0).2.2)).1 = (cachedCallCount c name f 0).1 ∧
    (cachedCallCount ((cachedCallCount c name f 0).2.1) name f
        ((cachedCallCount c name f 0).2.2)).2.1 = (cachedCallCount c name f 0).2.1 ∧
    (cachedCallCount ((cachedCallCount c name f 0).2.1) name f
        ((cachedCallCount c name f 0).2.2)).2.2 = 1 := by
  simp [cachedCallCount, lookupKey, h]

/-- Witness for C4 at a concrete input: an empty cache, the key
"centroid" and a computation returning 7. -/
theorem c4_memoized_once_witness :
    lookupKey ([] : List (String × Nat)) "centroid" = none ∧
    ((cachedCallCount ([] : List (String × Nat)) "centroid" (fun _ => 7) 0).1 = 7 ∧
     (cachedCallCount ([] : List (String × Nat)) "centroid" (fun _ => 7) 0).2.1
        = ("centroid", 7) :: [] ∧
     (cachedCallCount ([] : List (String × Nat)) "centroid" (fun _ => 7) 0).2.2 = 1 ∧
     (cachedCallCount ((cachedCallCount ([] : List (String × Nat)) "centroid" (fun _ => 7) 0).2.1)
        "centroid" (fun _ => 7)
        ((cachedCallCount ([] : List (String × Nat)) "centroid" (fun _ => 7) 0).2.2)).1
        = (cachedCallCount ([] : List (String × Nat)) "centroid" (fun _ => 7) 0).1 ∧
     (cachedCallCount ((cachedCallCount ([] : List (String × Nat)) "centroid" (fun _ => 7) 0).2.1)
        "centroid" (fun _ => 7)
        ((cachedCallCount ([] : List (String × Nat)) "centroid" (fun _ => 7) 0).2.2)).2.1
        = (cachedCallCount ([] : List (String × Nat)) "centroid" (fun _ => 7) 0).2.1 ∧
     (cachedCallCount ((cachedCallCount ([] : List (String × Nat)) "centroid" (fun _ => 7) 0).2.1)
        "centroid" (fun _ => 7)
        ((cachedCallCount ([] : List (String × Nat)) "centroid" (fun _ => 7) 0).2.2)).2.2 = 1) :=
  ⟨rfl, c4_memoized_once [] "centroid" (fun _ => 7) rfl⟩

/-- C6 counterexample: the claim says an empty mask is detected before
any division-by-pixel-count quantity is computed and an error is
signaled.  On `genDegenerate` (all-zero crop: the mask has zero
foreground pixels) the engine performs no detection: `centroid` runs to
completion, silently produces the undefined mean marker (the NaN row
numpy yields for a mean over zero rows), caches it and returns it as an
ordinary value. -/
theorem c6_no_detection_counterexample :
    ((maskOf genDegenerate).all fun row => row.all fun b => !b) = true ∧
    (centroidP genDegenerate).1 = Val.vec none ∧
    (centroidP genDegenerate).2.cache =
      [("centroid", Val.vec none), ("coordinates", Val.coords [])] := by
  refine ⟨by decide, by decide, by decide⟩

/-- C6 amended: the engine performs no empty-mask detection.  Whenever
the coordinate set is empty (in particular for a degenerate object with
an all-zero crop) and neither `centroid` nor `coordinates` is cached
yet, `centroid` is computed unconditionally and silently evaluates to
the undefined mean marker (NaN in the source) instead of an error. -/
theorem c6_centroid_silent_nan (g : Gen)
    (h1 : coordsOfG g = [])
    (h2 : lookupKey g.cache "centroid" = none)
    (h3 : lookupKey g.cache "coordinates" = none) :
    (centroidP g).1 = Val.vec none := by
  simp [centroidP, coordinatesP, cachedProp, h1, h2, h3, centroidFrom, ratRows, meanAxis0]

/-- Witness for the amended C6 at the concrete degenerate state. -/
theorem c6_centroid_silent_nan_witness :
    (centroidP genDegenerate).1 = Val.vec none :=
  c6_centroid_silent_nan genDegenerate (by decide) (by decide) (by decide)

/-- C9 counterexample: the claim says construction fails fast when the
two shapes are incompatible (neither equal nor a one-axis multichannel
extension).  `__init__` performs no shape validation at all (it only
computes the lexicographic tuple comparison for `multichannel`):
label shape (1,2) with image shape (1,1) is incompatible, yet
construction succeeds. -/
theorem c9_shape_mismatch_constructs :
    specShapesCompatible (shapeOf ([[1, 0]] : LabelImage))
      (shapeOf ([[Q.ofNat 1]] : IntensityImage)) = false ∧
    (init [[1, 0]] [[Q.ofNat 1]]).isOk = true := by
  refine ⟨by decide, by decide⟩

/-- C9 amended: if the label image contains no positive labels,
construction fails fast (the `IndexError` from `objects[0]`), before
any iteration; no shape-compatibility check is performed. -/
theorem c9_no_positive_labels_fails (label : LabelImage) (image : IntensityImage)
    (h : ∀ v ∈ gridEntries label, v = 0) :
    init label image = .error "IndexError" := by
  have h0 : gridMax label = 0 :=
    Nat.le_zero.mp (foldr_max_le (gridEntries label) 0 (fun v hv => Nat.le_of_eq (h v hv)))
  have hobj : findObjects label = [] := by
    simp [findObjects, h0]
  unfold init
  rw [hobj]
  rfl

/-- Witness for the amended C9: an all-zero label image fails at
construction. -/
theorem c9_no_positive_labels_fails_witness :
    init [[0, 0]] [[Q.ofNat 1]] = .error "IndexError" :=
  c9_no_positive_labels_fails [[0, 0]] [[Q.ofNat 1]] (by decide)

/-- C5: for a label image whose positive labels are exactly the dense,
contiguous values 1..N (N at least 1), construction succeeds, the
engine yields exactly N rows (the k-th advance succeeds precisely when
k does not exceed N), and every request beyond the N-th signals
end-of-sequence.  Because the advance is a pure function of the
unchanged terminal state, this exhausted answer repeats for every
subsequent request: the terminal state is idempotent. -/
theorem c5_yields_exactly_n (label : LabelImage) (image : IntensityImage) (N : Nat)
    (hN : 1 ≤ N)
    (hle : ∀ v ∈ gridEntries label, v ≤ N)
    (hdense : ∀ l, l < N → l + 1 ∈ gridEntries label) :
    ∃ g, init label image = .ok g ∧ g.objects.length = N ∧
      (∀ k, k ≤ N → (runNext g k).isSome) ∧
      (∀ k, N < k → runNext g k = none) := by
  have hmem : N ∈ gridEntries label := by
    have hx := hdense (N - 1) (by omega)
    have hy : N - 1 + 1 = N := by omega
    rwa [hy] at hx
  have hmax : gridMax label = N :=
    le_antisymm (foldr_max_le _ _ hle) (le_foldr_max _ _ hmem)
  have hlen : (findObjects label).length = N := by
    rw [findObjects_length, hmax]
  have hlt : (0 : Nat) < (findObjects label).length := by omega
  have hs := List.get?_eq_get hlt
  refine ⟨⟨label, imgAsFloat image, tupleLt (shapeOf label) (shapeOf image),
    findObjects label, 1, (findObjects label).get ⟨0, hlt⟩, false, []⟩, ?_, hlen, ?_, ?_⟩
  · unfold init
    rw [hs]
  · intro k hk
    exact runNext_isSome _ rfl k (by show k ≤ (findObjects label).length; omega)
  · intro k hk
    exact runNext_none_after _ rfl k (by show (findObjects label).length < k; omega)

/-- Witness for C5: two dense labels yield exactly two rows. -/
theorem c5_yields_exactly_n_witness :
    ∃ g, init [[1, 2]] [[Q.ofNat 1, Q.ofNat 1]] = .ok g ∧ g.objects.length = 2 ∧
      (∀ k, k ≤ 2 → (runNext g k).isSome) ∧
      (∀ k, 2 < k → runNext g k = none) :=
  c5_yields_exactly_n [[1, 2]] [[Q.ofNat 1, Q.ofNat 1]] 2 (by decide) (by decide) (by decide)

/-- The modeled moment matrix has four rows. -/
theorem moments2_length (img : List (List Nat)) : (moments2 img).length = 4 := by
  simp [moments2]

/-- Every row of the modeled moment matrix has four entries. -/
theorem moments2_row_length (img : List (List Nat)) (row : List Nat)
    (h : row ∈ moments2 img) : row.length = 4 := by
  simp only [moments2, List.mem_map] at h
  obtain ⟨p, _, rfl⟩ := h
  simp

/-- C7: for a non-volumetric (2-D) object, `spatial_moments` is the
4 × 4 × 4 zero-initialized tensor whose first depth slice is the full
2-D raw moment matrix (up to order 3) of the 8-bit-converted masked
crop, and whose remaining depth slices 1..3 are all zero. -/
theorem c7_spatial_moments_embedding (g : Gen) (h : g.volumetric = false) :
    ∃ t, computeSpatialMoments g = Val.tensor t ∧
      t.get? 0 = some (moments2 ((maskedOf g).map (fun row => row.map toUbyte))) ∧
      ∀ k, 1 ≤ k → k ≤ 3 → t.get? k = some zeros44 := by
  refine ⟨[moments2 ((maskedOf g).map (fun row => row.map toUbyte)),
    zeros44, zeros44, zeros44], ?_, ?_, ?_⟩
  · simp [computeSpatialMoments, h]
  · rfl
  · intro k h1 h2
    interval_cases k <;> rfl

/-- Witness for C7 at the concrete one-object state `gEx`. -/
theorem c7_spatial_moments_embedding_witness :
    ∃ t, computeSpatialMoments gEx = Val.tensor t ∧
      t.get? 0 = some (moments2 ((maskedOf gEx).map (fun row => row.map toUbyte))) ∧
      ∀ k, 1 ≤ k → k ≤ 3 → t.get? k = some zeros44 :=
  c7_spatial_moments_embedding gEx rfl

/-- C8: the `area` derived quantity sums the ENTIRE label image: along
any run of advances it always equals the sum of the constructed label
image, and it is insensitive to the current object slice — the same
value for every object of a given engine instance. -/
theorem c8_area_whole_image (g gk : Gen) (k : Nat) (h : runNext g k = some gk) :
    computeArea gk = Val.nat (sumGrid g.label) ∧
    ∀ s, computeArea { gk with object := s } = computeArea gk := by
  obtain ⟨_, _, h3, _⟩ := runNext_fields g gk k h
  exact ⟨by simp [computeArea, h3], fun s => rfl⟩

/-- Witness for C8 after one advance of the concrete engine `gEx`. -/
theorem c8_area_whole_image_witness :
    computeArea gEx1 = Val.nat (sumGrid gEx.label) ∧
    ∀ s, computeArea { gEx1 with object := s } = computeArea gEx1 :=
  c8_area_whole_image gEx gEx1 1 (by decide)

/-- C10 counterexample: the claim's clause that `spatial_moments`
returns a 4 × 4 × 4 tensor "regardless of the label image's
dimensionality" fails for a 3-D label image.  For the concrete
single-voxel 3-D masked crop [[[255]]] the external moment routine
returns a full 4 × 4 × 4 tensor, and the always-`False` flag sends the
code into the 2-D embedding branch, where the broadcast assignment
`v[0] = m` raises ValueError: no tensor is returned for that object. -/
theorem c10_no_tensor_for_3d :
    (moments3 [[[255]]]).length = 4 ∧
    spatialMomentsGeneric (MomentTensor.three (moments3 [[[255]]])) false
      = .error "ValueError" ∧
    (spatialMomentsGeneric (MomentTensor.three (moments3 [[[255]]])) false).isOk = false := by
  refine ⟨by decide, rfl, rfl⟩

/-- C10 amended: `volumetric` is assigned `False` at construction and
never updated, so after any number of advances the flag is still
`False` and `spatial_moments` always takes the 2-D embedding branch.
On a 2-D label image that branch returns the 4 × 4 × 4 zero-padded
tensor whose rows and columns all have length 4 (and the generic body
agrees with the 2-D instantiation `computeSpatialMoments`); on a 3-D
label image, whose moment tensor is itself 4 × 4 × 4, the same branch
fails at the broadcast assignment `v[0] = m` with a ValueError instead
of returning a tensor. -/
theorem c10_embedding_branch_always (label : LabelImage) (image : IntensityImage)
    (g gk : Gen) (k : Nat)
    (h1 : init label image = .ok g) (h2 : runNext g k = some gk) :
    gk.volumetric = false ∧
    (∃ t, computeSpatialMoments gk = Val.tensor t ∧ t.length = 4 ∧
      ∀ m ∈ t, m.length = 4 ∧ ∀ row ∈ m, row.length = 4) ∧
    spatialMomentsGeneric
      (MomentTensor.two (moments2 ((maskedOf gk).map (fun row => row.map toUbyte))))
      gk.volumetric = .ok (computeSpatialMoments gk) ∧
    (∀ t3, spatialMomentsGeneric (MomentTensor.three t3) gk.volumetric
      = .error "ValueError") := by
  obtain ⟨hvol, _, _, _⟩ := init_ok_fields label image g h1
  obtain ⟨_, _, _, hv⟩ := runNext_fields g gk k h2
  have hfalse : gk.volumetric = false := by rw [hv, hvol]
  refine ⟨hfalse, ⟨[moments2 ((maskedOf gk).map (fun row => row.map toUbyte)),
    zeros44, zeros44, zeros44], ?_, rfl, ?_⟩, ?_, ?_⟩
  · simp [computeSpatialMoments, hfalse]
  · intro m hm
    simp only [List.mem_cons, List.not_mem_nil, or_false] at hm
    rcases hm with rfl | rfl | rfl | rfl
    · exact ⟨moments2_length _, fun row hrow => moments2_row_length _ row hrow⟩
    · exact ⟨by decide, by decide⟩
    · exact ⟨by decide, by decide⟩
    · exact ⟨by decide, by decide⟩
  · rw [hfalse]
    simp [spatialMomentsGeneric, computeSpatialMoments, hfalse]
  · intro t3
    rw [hfalse]
    rfl

/-- Witness for the amended C10 after one advance of the concrete
engine `gEx`. -/
theorem c10_embedding_branch_always_witness :
    gEx1.volumetric = false ∧
    (∃ t, computeSpatialMoments gEx1 = Val.tensor t ∧ t.length = 4 ∧
      ∀ m ∈ t, m.length = 4 ∧ ∀ row ∈ m, row.length = 4) ∧
    spatialMomentsGeneric
      (MomentTensor.two (moments2 ((maskedOf gEx1).map (fun row => row.map toUbyte))))
      gEx1.volumetric = .ok (computeSpatialMoments gEx1) ∧
    (∀ t3, spatialMomentsGeneric (MomentTensor.three t3) gEx1.volumetric
      = .error "ValueError") :=
  c10_embedding_branch_always [[1]] [[Q.ofNat 1]] gEx gEx1 1 rfl (by decide)

end NapariFeatures
